import Mathlib

/-!
Shallow embedding of the flux-bot command-dispatch runtime
(src/src/classes/OptionParser.ts, src/src/classes/Client.ts,
src/src/classes/PluginManager.ts and the typings they consume),
together with proofs settling the frozen claims about it.
-/

namespace Flux

/-- JavaScript-level values flowing through the option parser: the
platform-typed primitive values an interaction carries, plus the domain
handles produced by member/channel cache lookups. -/
inductive Value where
  | str (s : String)
  | num (q : ℚ)
  | bool (b : Bool)
  | member (id : String)
  | channel (id : String)
deriving DecidableEq, Repr

/-- The closed set of option types from src/src/types/CommandTypings.ts. -/
inductive OptionType where
  | STRING
  | NUMBER
  | INTEGER
  | BOOLEAN
  | USER
  | TEXT_CHANNEL
  | VOICE_CHANNEL
deriving DecidableEq, Repr

/-- `DefaultValueForOption`: either a static value or a function of the
execution context (the context is irrelevant to the claims, so it is
modelled as `Unit`). -/
inductive DefaultValue where
  | value (v : Value)
  | ofContext (f : Unit → Value)

/-- One option schema, mirroring `CommandOption` of CommandTypings.ts:
`choices` and `validate` are carried in the data model exactly as the
typings declare them; the parser functions below consult neither, which
mirrors OptionParser.ts, where no code path reads them. -/
structure CommandOption where
  name : String
  description : String := ""
  type : OptionType
  required : Bool
  defaultValue : Option DefaultValue := none
  choices : Option (List (String × Value)) := none
  collect : Bool := false
  validate : Option (Value → Bool) := none

/-- The guild member/channel caches the parser resolves ids against. -/
structure GuildCache where
  members : List String := []
  channels : List String := []

/-- Association-list lookup, modelling `Collection.get` / `Map.get`. -/
def assocGet {α : Type} : List (String × α) → String → Option α
  | [], _ => none
  | (k, v) :: rest, key => if k = key then some v else assocGet rest key

/-- Association-list update, modelling `Collection.set` / `Map.set`. -/
def assocSet {α : Type} : List (String × α) → String → α → List (String × α)
  | [], key, v => [(key, v)]
  | (k, w) :: rest, key, v =>
    if k = key then (key, v) :: rest else (k, w) :: assocSet rest key v

/-- Association-list removal, modelling `Collection.delete`. -/
def assocDel {α : Type} : List (String × α) → String → List (String × α)
  | [], _ => []
  | (k, w) :: rest, key =>
    if k = key then rest else (k, w) :: assocDel rest key

/-- JavaScript falsiness on the values of the model: the empty string,
the number 0 and the boolean false are falsy; object handles are truthy. -/
def jsFalsy : Value → Bool
  | .str s => s = ""
  | .num q => q = 0
  | .bool b => b = false
  | .member _ => false
  | .channel _ => false

/-- Falsiness lifted to a possibly-absent value: `null`/`undefined` is
falsy, so this is exactly the guard `!optionValue || !optionValue.value`. -/
def jsFalsyOpt : Option Value → Bool
  | none => true
  | some v => jsFalsy v

/-- Coercion `optionValue.value + ""` used for cache lookups. Number
formatting is approximated by the Lean rational printer; the claims only
exercise string-valued ids. -/
def jsToString : Value → String
  | .str s => s
  | .bool b => if b then "true" else "false"
  | .num q => toString q
  | .member id => id
  | .channel id => id

/-- `interaction.guild.members.cache.get(id)`. -/
def memberCacheGet (g : GuildCache) (id : String) : Option Value :=
  if g.members.contains id then some (.member id) else none

/-- `interaction.guild.channels.cache.get(id)`. -/
def channelCacheGet (g : GuildCache) (id : String) : Option Value :=
  if g.channels.contains id then some (.channel id) else none

/-- Lazily evaluate a declared default: static values are returned as is,
context functions are applied; an option without a default yields
`undefined`. -/
def evalDefault : Option DefaultValue → Option Value
  | none => none
  | some (.value v) => some v
  | some (.ofContext f) => some (f ())

/-- `interaction.options.get(name, required)`: discord.js raises when a
required option is absent, otherwise absence yields `null`. -/
def interactionGet (opts : List (String × Value)) (name : String)
    (required : Bool) : Except String (Option Value) :=
  match assocGet opts name with
  | some v => .ok (some v)
  | none => if required then .error "required option missing" else .ok none

/-- Body of the `options.map` callback of
`OptionParser.extractArgsFromInteractionOptions` (OptionParser.ts lines
22-47). The first guard returns `undefined` for every absent or falsy
value; the subsequent default-computing branch therefore can never be
taken (its condition implies the first guard already returned), which the
translation preserves literally. The `switch` has no `INTEGER` arm and no
`default`, so an INTEGER option makes the callback return `undefined`. -/
def resolveInteractionOption (g : GuildCache) (o : CommandOption)
    (optionValue : Option Value) : Option Value :=
  if jsFalsyOpt optionValue then
    none
  else if optionValue.isNone && !o.required then
    evalDefault o.defaultValue
  else
    match optionValue with
    | none => none
    | some v =>
      match o.type with
      | .STRING => some v
      | .NUMBER => some v
      | .BOOLEAN => some v
      | .USER => memberCacheGet g (jsToString v)
      | .TEXT_CHANNEL => channelCacheGet g (jsToString v)
      | .VOICE_CHANNEL => channelCacheGet g (jsToString v)
      | .INTEGER => none

/-- `OptionParser.extractArgsFromInteractionOptions`: map each declared
option over the pre-typed interaction values; a raise from the required
lookup propagates, nothing else can fail on this path. -/
def extractArgsFromInteractionOptions (g : GuildCache)
    (opts : List (String × Value)) :
    List CommandOption → Except String (List (Option Value))
  | [] => .ok []
  | o :: rest =>
    match interactionGet opts o.name o.required with
    | .error e => .error e
    | .ok optionValue =>
      match extractArgsFromInteractionOptions g opts rest with
      | .error e => .error e
      | .ok vs => .ok (resolveInteractionOption g o optionValue :: vs)

/-- The structured errors thrown by `OptionParser.extractArgsFromMessage`,
one constructor per `throw new Error(...)` site. -/
inductive ArgError where
  | missingRequired (name : String)
  | invalidNumber (name : String)
  | invalidBoolean (name : String)
  | userNotFound (name : String)
  | channelNotFound (name : String)
  | unsupportedType (type : OptionType)
deriving DecidableEq, Repr

/-- Decimal digit accumulation for the numeric token parser. -/
def digitsToNat (cs : List Char) : Nat :=
  cs.foldl (fun n c => 10 * n + (c.toNat - 48)) 0

/-- JS `parseFloat` restricted to the whitespace-free tokens produced by
the message splitter: an optional sign, then the longest digit prefix,
then an optional fraction; anything after the numeric prefix is ignored,
and a token with no leading numeric prefix gives NaN (here `none`).
Exponent and Infinity forms are not modelled; no claim exercises them. -/
def parseFloatPrefix (s : String) : Option ℚ :=
  let cs := s.toList
  let sign : ℚ := if cs.head? = some '-' then -1 else 1
  let cs := if cs.head? = some '-' || cs.head? = some '+' then cs.tail else cs
  let intPart := cs.takeWhile Char.isDigit
  let rest := cs.dropWhile Char.isDigit
  let fracPart :=
    match rest with
    | '.' :: t => t.takeWhile Char.isDigit
    | _ => []
  if intPart.isEmpty && fracPart.isEmpty then none
  else some (sign * ((digitsToNat intPart : ℚ) +
    (digitsToNat fracPart : ℚ) / ((10 : ℚ) ^ fracPart.length)))

/-- `arg.replace(/[^0-9]/g, "")`. -/
def digitsOnly (s : String) : String :=
  String.mk (s.toList.filter Char.isDigit)

/-- The per-token `switch (option.type)` of
`OptionParser.extractArgsFromMessage` (OptionParser.ts lines 89-129).
The switch has arms for STRING, NUMBER, BOOLEAN, USER, TEXT_CHANNEL and
VOICE_CHANNEL only; INTEGER falls into the `default:` arm, which throws
`Unsupported argument type`. -/
def parseMessageToken (g : GuildCache) (o : CommandOption) (arg : String) :
    Except ArgError Value :=
  match o.type with
  | .STRING => .ok (.str arg)
  | .NUMBER =>
    match parseFloatPrefix arg with
    | some q => .ok (.num q)
    | none => .error (.invalidNumber o.name)
  | .BOOLEAN =>
    if arg.toLower = "true" then .ok (.bool true)
    else if arg.toLower = "false" then .ok (.bool false)
    else .error (.invalidBoolean o.name)
  | .USER =>
    match memberCacheGet g (digitsOnly arg) with
    | some v => .ok v
    | none => .error (.userNotFound o.name)
  | .TEXT_CHANNEL =>
    match channelCacheGet g (digitsOnly arg) with
    | some v => .ok v
    | none => .error (.channelNotFound o.name)
  | .VOICE_CHANNEL =>
    match channelCacheGet g (digitsOnly arg) with
    | some v => .ok v
    | none => .error (.channelNotFound o.name)
  | .INTEGER => .error (.unsupportedType o.type)

/-- `OptionParser.extractArgsFromMessage` (OptionParser.ts lines 60-136):
walk the option list positionally over the token queue. Per option:
a required option with a falsy current token throws MissingArgument; an
optional option with a falsy current token pushes its default and moves
on without consuming; a required option marked `collect` pushes the join
of all remaining tokens and breaks out of the loop (so later options are
left unprocessed); otherwise the current token is parsed by type and
consumed. Note the collect branch fires only under `required && collect`. -/
def extractArgsFromMessage (g : GuildCache) :
    List CommandOption → List String → Except ArgError (List (Option Value))
  | [], _ => .ok []
  | o :: rest, args =>
    let argFalsy :=
      match args.head? with
      | none => true
      | some a => a = ""
    if o.required && argFalsy then
      .error (.missingRequired o.name)
    else if argFalsy && !o.required then
      match extractArgsFromMessage g rest args with
      | .error e => .error e
      | .ok vs => .ok (evalDefault o.defaultValue :: vs)
    else if o.required && o.collect then
      .ok [some (.str (String.intercalate " " args))]
    else
      match parseMessageToken g o (args.headD "") with
      | .error e => .error e
      | .ok v =>
        match extractArgsFromMessage g rest args.tail with
        | .error e => .error e
        | .ok vs => .ok (some v :: vs)

/-- Behaviour of one middleware in the chain, as the middleware contract
of the spec describes it: a middleware either awaits `next()` exactly once
and returns, returns without ever calling `next()`, or raises. The shared
index cursor of `FluxClient.executeMiddleware` is embedded below over
these behaviours. -/
inductive MWBehavior where
  | callNext
  | halt
  | raise
deriving DecidableEq, Repr

/-- How a chain run ended: the cursor ran off the end of the list (every
middleware passed control on), some middleware returned without calling
`next()`, or some middleware raised. -/
inductive ChainOutcome where
  | reached
  | halted
  | errored
deriving DecidableEq, Repr

/-- The cursor of `FluxClient.executeMiddleware` (Client.ts lines
357-372): `next` advances the index and invokes the middleware there, or
returns when the index has passed the end. Returns the zero-based indices
of the middleware actually invoked and the outcome of the run. -/
def execChain : List MWBehavior → Nat → List Nat × ChainOutcome
  | [], _ => ([], .reached)
  | .halt :: _, i => ([i], .halted)
  | .raise :: _, i => ([i], .errored)
  | .callNext :: rest, i =>
    (i :: (execChain rest (i + 1)).1, (execChain rest (i + 1)).2)

/-- The observable events a dispatch produces, one constructor per
`emit` call or invocation site of `FluxClient.commandHandler` and its
callees. -/
inductive Ev where
  | permissionDenied
  | cooldownActive (timeLeft : ℚ)
  | preMiddlewareRun (i : Nat)
  | middlewareError
  | pluginCommandCall
  | commandExecute
  | commandExecutionError
  | postMiddlewareRun (i : Nat)
deriving DecidableEq, Repr

/-- `FluxClient.postPreExecution` (Client.ts lines 325-347): run the
plugin `onCommandCall` hooks, run the command body catching and reporting
a body raise, then run the post-execution chain, catching and reporting a
raise from it. -/
def postPreExecution (post : List MWBehavior) (bodyRaises : Bool) : List Ev :=
  Ev.pluginCommandCall ::
    (if bodyRaises then [Ev.commandExecutionError] else [Ev.commandExecute]) ++
    (execChain post 0).1.map Ev.postMiddlewareRun ++
    (if (execChain post 0).2 = ChainOutcome.errored then [Ev.middlewareError] else [])

/-- Client.ts lines 309-318: the pre-execution chain is invoked with the
synthetic terminal step `postPreExecution` appended, so the terminal step
runs exactly when the cursor traverses the whole user pre chain; a raise
from a pre middleware is caught and reported as a middleware error. -/
def runPipeline (pre post : List MWBehavior) (bodyRaises : Bool) : List Ev :=
  match (execChain pre 0).2 with
  | .reached =>
    (execChain pre 0).1.map Ev.preMiddlewareRun ++ postPreExecution post bodyRaises
  | .halted => (execChain pre 0).1.map Ev.preMiddlewareRun
  | .errored => (execChain pre 0).1.map Ev.preMiddlewareRun ++ [Ev.middlewareError]

/-- Per-user last-use stamps of one command, user id ↦ epoch millis. -/
abbrev StampMap := List (String × Nat)

/-- The cooldown ledger plus the deletion timers `setTimeout` schedules:
each timer entry is (fire time in ms, command name, user id). -/
structure CooldownState where
  stamps : List (String × StampMap) := []
  timers : List (Nat × String × String) := []
deriving DecidableEq, Repr

/-- The cooldown block of `FluxClient.commandHandler` (Client.ts lines
273-294). `lastuse && current < lastuse + cooldownTime` uses JS
falsiness, so a stored stamp of 0 counts as absent; when the check fires
it yields the `cooldownActive` payload `(lastuse + cooldownTime -
current) / 1000` and does NOT stop the dispatch; the stamp is rewritten
with `current` after the check no matter what, and a deletion timer for
the entry is scheduled `cooldownTime` ms ahead. -/
def cooldownStep (cmdName : String) (cooldownSeconds : Nat) (uid : String)
    (now : Nat) (st : CooldownState) : Option ℚ × CooldownState :=
  let cooldownTime := cooldownSeconds * 1000
  let timeStamps := (assocGet st.stamps cmdName).getD []
  let lastuse := assocGet timeStamps uid
  let active : Option ℚ :=
    match lastuse with
    | none => none
    | some lu =>
      if lu ≠ 0 ∧ now < lu + cooldownTime then
        some ((((lu + cooldownTime - now : Nat)) : ℚ) / 1000)
      else none
  (active,
    { stamps := assocSet st.stamps cmdName (assocSet timeStamps uid now),
      timers := st.timers ++ [(now + cooldownTime, cmdName, uid)] })

/-- One deletion timer firing: `timeStamps.delete(interop.user.id)`. -/
def deleteStamp (stamps : List (String × StampMap)) (cmdName uid : String) :
    List (String × StampMap) :=
  assocSet stamps cmdName (assocDel ((assocGet stamps cmdName).getD []) uid)

/-- Run every scheduled deletion timer due at or before `t`, in the order
they were scheduled, as the event loop does before delivering an event at
time `t`. -/
def fireTimersUpTo (t : Nat) (st : CooldownState) : CooldownState :=
  { stamps := (st.timers.filter (fun tr => tr.1 ≤ t)).foldl
      (fun m tr => deleteStamp m tr.2.1 tr.2.2) st.stamps,
    timers := st.timers.filter (fun tr => ¬ tr.1 ≤ t) }

/-- A command as `FluxClient.commandHandler` consumes it: `cooldown = 0`
models an absent/zero `command.cooldown` (falsy, so the cooldown block is
skipped); `permissions = none` models an absent `command.permissions`. -/
structure Command where
  name : String
  cooldown : Nat := 0
  permissions : Option (List String) := none

/-- `interop.member?.permissions.has(command.permissions)`: every listed
permission must be held (vacuously true for an empty list). -/
def permissionsHas (memberPerms : List String) (req : List String) : Bool :=
  req.all (fun p => memberPerms.contains p)

/-- The permission gate of `FluxClient.commandHandler` (Client.ts lines
263-271): with `command.permissions` absent the gate passes; with it
present, an absent `interop.member` (here `memberPerms = none`) or a
member lacking a listed permission denies. -/
def permissionCheck (cmd : Command) (memberPerms : Option (List String)) : Bool :=
  match cmd.permissions with
  | none => true
  | some req =>
    match memberPerms with
    | none => false
    | some ps => permissionsHas ps req

/-- The guarded cooldown block: `if (command.cooldown)` skips it when the
cooldown is 0/absent, otherwise `cooldownStep` runs. -/
def cooldownResult (cmd : Command) (uid : String) (now : Nat)
    (st : CooldownState) : Option ℚ × CooldownState :=
  if cmd.cooldown ≠ 0 then cooldownStep cmd.name cmd.cooldown uid now st
  else (none, st)

/-- The `cooldownActive` emission: one event when the check fired. -/
def cooldownEvents : Option ℚ → List Ev
  | some q => [Ev.cooldownActive q]
  | none => []

/-- `FluxClient.commandHandler` (Client.ts lines 258-318), assembled from
the pieces above: permission gate returning early on denial, then the
cooldown block, then the plugin argument-provider loop (no observable
event a claim tracks), then the middleware pipeline with the synthetic
terminal step. `memberPerms = none` models an absent `interop.member`. -/
def commandHandler (cmd : Command) (uid : String)
    (memberPerms : Option (List String)) (now : Nat) (st : CooldownState)
    (pre post : List MWBehavior) (bodyRaises : Bool) : List Ev × CooldownState :=
  if !permissionCheck cmd memberPerms then ([Ev.permissionDenied], st)
  else
    (cooldownEvents (cooldownResult cmd uid now st).1 ++
       runPipeline pre post bodyRaises,
     (cooldownResult cmd uid now st).2)

/-- A sequence of dispatch attempts of one command by one user at the
given times: before each attempt the due deletion timers fire, then the
cooldown block runs; the per-attempt `cooldownActive` payloads (none =
not on cooldown) are collected. -/
def runCooldownScenario (cmdName : String) (cooldownSeconds : Nat)
    (uid : String) : List Nat → CooldownState → List (Option ℚ) × CooldownState
  | [], st => ([], st)
  | t :: ts, st =>
    (((cooldownStep cmdName cooldownSeconds uid t (fireTimersUpTo t st)).1 ::
        (runCooldownScenario cmdName cooldownSeconds uid ts
          (cooldownStep cmdName cooldownSeconds uid t (fireTimersUpTo t st)).2).1),
     (runCooldownScenario cmdName cooldownSeconds uid ts
       (cooldownStep cmdName cooldownSeconds uid t (fireTimersUpTo t st)).2).2)

/-- A plugin as `PluginManager` sees it. `dependencies` mirrors the
declared `dependencies` field of the `Plugin` interface
(src/src/types/FluxPlugin.ts); `PluginManager.loadPlugin` never reads
that field. `valid` abstracts the structural check `isValidPlugin`
(name and version are strings and `init` is a function); `initRaises`
abstracts whether the `init` call throws. -/
structure Plugin where
  name : String
  version : String := "1.0.0"
  dependencies : List String := []
  valid : Bool := true
  initRaises : Bool := false
deriving DecidableEq, Repr

/-- Observable outcomes of loading one plugin, per emit/log site of
`PluginManager.loadPlugin`. -/
inductive PluginEv where
  | invalidStructure (name : String)
  | initError (name : String)
deriving DecidableEq, Repr

/-- Loader state: the live plugin registry `client.plugins`, the order in
which `init` calls ran, and the failure events raised. -/
structure PluginLoadState where
  registered : List (String × Plugin) := []
  initOrder : List String := []
  events : List PluginEv := []
deriving Repr

/-- `PluginManager.loadPlugin` (PluginManager.ts lines 49-78): skip a
structurally invalid candidate with a warning; otherwise call `init` —
on a raise, report the failure and register nothing; on success register
the plugin under its name. Declared dependencies are never consulted. -/
def loadPlugin (p : Plugin) (st : PluginLoadState) : PluginLoadState :=
  if !p.valid then
    { st with events := st.events ++ [.invalidStructure p.name] }
  else if p.initRaises then
    { st with initOrder := st.initOrder ++ [p.name]
              events := st.events ++ [.initError p.name] }
  else
    { st with initOrder := st.initOrder ++ [p.name]
              registered := assocSet st.registered p.name p }

/-- `PluginManager.loadPlugins` on an in-memory batch (PluginManager.ts
lines 16-22): each plugin is loaded in input order; there is no
dependency graph, no topological sort and no cycle check anywhere on
this path. -/
def loadPlugins (ps : List Plugin) (st : PluginLoadState) : PluginLoadState :=
  ps.foldl (fun s p => loadPlugin p s) st

/-! Helper lemmas shared by the claim theorems. -/

theorem assocGet_assocSet_self {α : Type} (m : List (String × α)) (k : String) (v : α) :
    assocGet (assocSet m k v) k = some v := by
  induction m with
  | nil => simp [assocGet, assocSet]
  | cons hd tl ih =>
    obtain ⟨k1, v1⟩ := hd
    by_cases h : k1 = k <;> simp [assocGet, assocSet, h, ih]

theorem execChain_reached_iff (mws : List MWBehavior) (i : Nat) :
    (execChain mws i).2 = ChainOutcome.reached ↔
      ∀ b ∈ mws, b = MWBehavior.callNext := by
  induction mws generalizing i with
  | nil => simp [execChain]
  | cons b rest ih =>
    cases b
    · simp [execChain, ih (i + 1)]
    · simp [execChain]
    · simp [execChain]

theorem runPipeline_halt_events (pre post : List MWBehavior) (br : Bool)
    (h : MWBehavior.halt ∈ pre) :
    runPipeline pre post br = (execChain pre 0).1.map Ev.preMiddlewareRun ∨
    runPipeline pre post br =
      (execChain pre 0).1.map Ev.preMiddlewareRun ++ [Ev.middlewareError] := by
  have hnr : (execChain pre 0).2 ≠ ChainOutcome.reached := fun hr =>
    absurd (((execChain_reached_iff pre 0).mp hr) _ h) (by simp)
  unfold runPipeline
  rcases hr : (execChain pre 0).2
  · exact absurd hr hnr
  · exact Or.inl rfl
  · exact Or.inr rfl

/-! The claim theorems. -/

/-- C9: for every dispatch, if some pre-execution middleware returns
without ever calling next(), the command body is never invoked and no
post-execution middleware runs for that dispatch: the synthetic terminal
step (plugin command-call hooks, the body, and the post chain it
triggers) is skipped entirely. -/
theorem pre_middleware_halt_skips_body_and_post
    (cmd : Command) (uid : String) (memberPerms : Option (List String))
    (now : Nat) (st : CooldownState) (pre post : List MWBehavior)
    (bodyRaises : Bool) (h : MWBehavior.halt ∈ pre) :
    Ev.commandExecute ∉ (commandHandler cmd uid memberPerms now st pre post bodyRaises).1 ∧
    Ev.commandExecutionError ∉ (commandHandler cmd uid memberPerms now st pre post bodyRaises).1 ∧
    Ev.pluginCommandCall ∉ (commandHandler cmd uid memberPerms now st pre post bodyRaises).1 ∧
    ∀ i, Ev.postMiddlewareRun i ∉ (commandHandler cmd uid memberPerms now st pre post bodyRaises).1 := by
  have hp := runPipeline_halt_events pre post bodyRaises h
  cases hperm : permissionCheck cmd memberPerms
  · simp [commandHandler, hperm]
  · rcases hp with hp | hp <;>
      rcases hcd : (cooldownResult cmd uid now st).1 with _ | q <;>
        simp [commandHandler, hperm, hp, hcd, cooldownEvents]

/-- C9 witness: a concrete dispatch whose second pre-execution middleware
halts: the body, plugin hook and post chain events are absent. -/
theorem pre_middleware_halt_skips_body_and_post_witness :
    Ev.commandExecute ∉ (commandHandler { name := "ping" } "u" none 1700000000000 {}
        [MWBehavior.callNext, MWBehavior.halt] [MWBehavior.callNext] false).1 ∧
    Ev.commandExecutionError ∉ (commandHandler { name := "ping" } "u" none 1700000000000 {}
        [MWBehavior.callNext, MWBehavior.halt] [MWBehavior.callNext] false).1 ∧
    Ev.pluginCommandCall ∉ (commandHandler { name := "ping" } "u" none 1700000000000 {}
        [MWBehavior.callNext, MWBehavior.halt] [MWBehavior.callNext] false).1 ∧
    ∀ i, Ev.postMiddlewareRun i ∉ (commandHandler { name := "ping" } "u" none 1700000000000 {}
        [MWBehavior.callNext, MWBehavior.halt] [MWBehavior.callNext] false).1 :=
  pre_middleware_halt_skips_body_and_post { name := "ping" } "u" none 1700000000000 {}
    [MWBehavior.callNext, MWBehavior.halt] [MWBehavior.callNext] false (by simp)

/-- C1 counterexample: a dispatch that finds the user on cooldown
(stamp 1700000000000, now 1700000002000, five-second cooldown) emits
`cooldownActive` yet still reaches the synthetic terminal step and
invokes the command body — the dispatch does not terminate early. -/
theorem cooldown_active_dispatch_continues_cex :
    (commandHandler { name := "ping", cooldown := 5 } "u" none 1700000002000
        { stamps := [("ping", [("u", 1700000000000)])] } [] [] false).1
      = [Ev.cooldownActive 3, Ev.pluginCommandCall, Ev.commandExecute] := by
  norm_num [commandHandler, permissionCheck, cooldownResult, cooldownStep,
    cooldownEvents, runPipeline, execChain, postPreExecution, assocGet]
  decide

/-- C1 (amended): when the cooldown check finds the invoking user on
cooldown, the dispatcher surfaces the `cooldownActive` named event with
payload (lastUse + cooldownSeconds*1000 - now)/1000, but the dispatch
does NOT terminate early: the cooldown branch has no early return, so
the middleware chain still runs and — with every pre-execution middleware
passing control on and a non-raising body — the command body is invoked. -/
theorem cooldown_active_dispatch_continues
    (cmd : Command) (uid : String) (memberPerms : Option (List String))
    (now lu : Nat) (st : CooldownState) (pre post : List MWBehavior)
    (hperm : permissionCheck cmd memberPerms = true)
    (hcd : cmd.cooldown ≠ 0)
    (hlu : assocGet ((assocGet st.stamps cmd.name).getD []) uid = some lu)
    (hlu0 : lu ≠ 0)
    (hnow : now < lu + cmd.cooldown * 1000)
    (hall : ∀ b ∈ pre, b = MWBehavior.callNext) :
    Ev.cooldownActive (((lu + cmd.cooldown * 1000 - now : Nat) : ℚ) / 1000)
        ∈ (commandHandler cmd uid memberPerms now st pre post false).1 ∧
    Ev.commandExecute ∈ (commandHandler cmd uid memberPerms now st pre post false).1 := by
  have hactive : (cooldownResult cmd uid now st).1
      = some (((lu + cmd.cooldown * 1000 - now : Nat) : ℚ) / 1000) := by
    simp [cooldownResult, hcd, cooldownStep, hlu, hlu0, hnow]
  have hreach : (execChain pre 0).2 = ChainOutcome.reached :=
    (execChain_reached_iff pre 0).mpr hall
  simp [commandHandler, hperm, hactive, cooldownEvents, runPipeline, hreach,
    postPreExecution]

/-- C1 witness: the amended theorem applied at the concrete on-cooldown
dispatch of the counterexample. -/
theorem cooldown_active_dispatch_continues_witness :
    Ev.cooldownActive (((1700000000000 + 5 * 1000 - 1700000002000 : Nat) : ℚ) / 1000)
        ∈ (commandHandler { name := "ping", cooldown := 5 } "u" none 1700000002000
            { stamps := [("ping", [("u", 1700000000000)])] } [] [] false).1 ∧
    Ev.commandExecute ∈ (commandHandler { name := "ping", cooldown := 5 } "u" none
        1700000002000 { stamps := [("ping", [("u", 1700000000000)])] } [] [] false).1 :=
  cooldown_active_dispatch_continues { name := "ping", cooldown := 5 } "u" none
    1700000002000 1700000000000 { stamps := [("ping", [("u", 1700000000000)])] } [] []
    (by rfl) (by decide) (by rfl) (by decide) (by decide) (by simp)

/-- C5: with cooldownSeconds = 5, invocations by one user at relative
times 0s, 2s and 6s (offset by a realistic nonzero epoch — Date.now() is
never 0, and a stored stamp of 0 would be treated as absent by the JS
falsiness of `lastuse &&`) report not-on-cooldown, on-cooldown with
remainingSeconds exactly (lastUse + 5*1000 - now)/1000 = 3, and
not-on-cooldown again (the deletion timer of the first invocation fires
at 5s and removes the refreshed entry); and after every check the
last-use stamp is written unconditionally, on-cooldown checks included. -/
theorem cooldown_scenario_and_unconditional_stamp :
    (runCooldownScenario "ping" 5 "u"
        [1700000000000, 1700000002000, 1700000006000] {}).1
      = [none, some 3, none] ∧
    (3 : ℚ) = ((1700000000000 + 5 * 1000 - 1700000002000 : Nat) : ℚ) / 1000 ∧
    ∀ (cmdName : String) (cooldownSeconds : Nat) (uid : String) (now : Nat)
      (st : CooldownState),
      assocGet ((assocGet (cooldownStep cmdName cooldownSeconds uid now st).2.stamps
          cmdName).getD []) uid = some now := by
  refine ⟨?_, by norm_num, ?_⟩
  · norm_num [runCooldownScenario, cooldownStep, fireTimersUpTo, deleteStamp,
      assocGet, assocSet, assocDel, List.filter]
  · intro cmdName cooldownSeconds uid now st
    simp [cooldownStep, assocGet_assocSet_self]

/-- C2 counterexample: loading the batch [C, B, A] — C declaring a
dependency on B and B on A — runs the init functions in input order
C, B, A, not in dependency order A, B, C: the loader never reads the
declared dependencies. All three init functions do run. -/
theorem plugin_batch_input_order_cex :
    (loadPlugins [{ name := "C", dependencies := ["B"] },
        { name := "B", dependencies := ["A"] },
        { name := "A" }] {}).initOrder = ["C", "B", "A"] ∧
    (loadPlugins [{ name := "C", dependencies := ["B"] },
        { name := "B", dependencies := ["A"] },
        { name := "A" }] {}).initOrder ≠ ["A", "B", "C"] := by
  decide

/-- C2 (amended): loading the batch [C, B, A] initializes all three
plugins, but their init functions run in the input order C, then B, then
A — in general, for a batch of structurally valid plugins, init order
equals input order; declared dependencies never reorder a batch. -/
theorem plugin_batch_inits_in_input_order
    (ps : List Plugin) (st : PluginLoadState)
    (h : ∀ p ∈ ps, p.valid = true) :
    (loadPlugins ps st).initOrder = st.initOrder ++ ps.map Plugin.name := by
  induction ps generalizing st with
  | nil => simp [loadPlugins]
  | cons p rest ih =>
    have hp : p.valid = true := h p (by simp)
    have hrest : ∀ q ∈ rest, q.valid = true := fun q hq => h q (by simp [hq])
    have hstep : loadPlugins (p :: rest) st = loadPlugins rest (loadPlugin p st) := rfl
    rw [hstep, ih (loadPlugin p st) hrest]
    by_cases hr : p.initRaises = true
    · simp [loadPlugin, hp, hr]
    · simp [loadPlugin, hp, hr]

/-- C2 witness: the input-order theorem applied to the concrete batch
[C, B, A] of the counterexample. -/
theorem plugin_batch_inits_in_input_order_witness :
    (loadPlugins [{ name := "C", dependencies := ["B"] },
        { name := "B", dependencies := ["A"] },
        { name := "A" }] {}).initOrder
      = ({} : PluginLoadState).initOrder ++
          ([{ name := "C", dependencies := ["B"] },
            { name := "B", dependencies := ["A"] },
            { name := "A" }] : List Plugin).map Plugin.name :=
  plugin_batch_inits_in_input_order
    [{ name := "C", dependencies := ["B"] },
     { name := "B", dependencies := ["A"] },
     { name := "A" }] {} (by decide)

/-- C8 counterexample: loading the mutually-dependent batch [X, Y] — X
declaring a dependency on Y and Y on X — does not fail the batch: no
failure event is raised and both init functions are invoked (in input
order), contradicting a batch-fatal cycle error with neither init run. -/
theorem plugin_cycle_not_detected_cex :
    (loadPlugins [{ name := "X", dependencies := ["Y"] },
        { name := "Y", dependencies := ["X"] }] {}).initOrder = ["X", "Y"] ∧
    (loadPlugins [{ name := "X", dependencies := ["Y"] },
        { name := "Y", dependencies := ["X"] }] {}).events = [] := by
  decide

/-- C8 (amended): no cycle detection exists: loading two structurally
valid, non-raising, mutually-dependent (or arbitrarily-dependent)
plugins with distinct names succeeds — both init functions run in input
order, no failure event is raised, and both plugins end up registered. -/
theorem plugin_cycle_batch_loads_both (p q : Plugin)
    (hpv : p.valid = true) (hpr : p.initRaises = false)
    (hqv : q.valid = true) (hqr : q.initRaises = false)
    (hname : p.name ≠ q.name) :
    (loadPlugins [p, q] {}).initOrder = [p.name, q.name] ∧
    (loadPlugins [p, q] {}).events = [] ∧
    assocGet (loadPlugins [p, q] {}).registered p.name = some p ∧
    assocGet (loadPlugins [p, q] {}).registered q.name = some q := by
  have h1 : loadPlugins [p, q] {} = loadPlugin q (loadPlugin p {}) := rfl
  simp [h1, loadPlugin, hpv, hpr, hqv, hqr, assocSet, assocGet, hname, Ne.symm hname]

/-- C8 witness: the no-cycle-detection theorem applied to the concrete
X ↔ Y cycle of the counterexample. -/
theorem plugin_cycle_batch_loads_both_witness :
    (loadPlugins [{ name := "X", dependencies := ["Y"] },
        { name := "Y", dependencies := ["X"] }] {}).initOrder = ["X", "Y"] ∧
    (loadPlugins [{ name := "X", dependencies := ["Y"] },
        { name := "Y", dependencies := ["X"] }] {}).events = [] ∧
    assocGet (loadPlugins [{ name := "X", dependencies := ["Y"] },
        { name := "Y", dependencies := ["X"] }] {}).registered "X"
      = some { name := "X", dependencies := ["Y"] } ∧
    assocGet (loadPlugins [{ name := "X", dependencies := ["Y"] },
        { name := "Y", dependencies := ["X"] }] {}).registered "Y"
      = some { name := "Y", dependencies := ["X"] } :=
  plugin_cycle_batch_loads_both { name := "X", dependencies := ["Y"] }
    { name := "Y", dependencies := ["X"] } rfl rfl rfl rfl (by decide)

/-- C3 (code bug): for the Option Schema x (STRING, required=false,
static default "d") and no provided value, the free-text resolver yields
exactly the default — without running any type parser, as its default
branch returns before the per-token switch — but the structured
(interaction) resolver yields undefined instead of the default: its
guard `!optionValue || !optionValue.value` returns first, leaving the
default-computing branch as dead code. The claim holds on the free-text
shape and fails on the structured shape. -/
theorem optional_static_default_split_behavior :
    extractArgsFromMessage {} [{ name := "x", type := OptionType.STRING, required := false, defaultValue := some (.value (.str "d")) }] []
      = .ok [some (.str "d")] ∧
    extractArgsFromInteractionOptions {} [] [{ name := "x", type := OptionType.STRING, required := false, defaultValue := some (.value (.str "d")) }]
      = .ok [none] :=
  ⟨rfl, rfl⟩

/-- C4 counterexample: resolving structured input for the NUMBER option
n with choices one ↦ 1, two ↦ 2 and the provided value 3 does not fail
with ValidationFailed: it succeeds and returns 3 unchanged — the
structured resolver never reads `choices`, and this path cannot fail at
all. -/
theorem number_choices_value_three_accepted_cex :
    extractArgsFromInteractionOptions {} [("n", .num 3)]
      [{ name := "n", type := OptionType.NUMBER, required := true, choices := some [("one", .num 1), ("two", .num 2)] }]
      = .ok [some (.num 3)] :=
  rfl

/-- C4 (amended): provided values 1 and 2 succeed and round-trip
unchanged — and so does the out-of-choices value 3: the structured
resolver performs no choices validation (choices are only advertised to
the platform by the slash-command builder). -/
theorem number_choices_round_trip :
    extractArgsFromInteractionOptions {} [("n", .num 1)]
      [{ name := "n", type := OptionType.NUMBER, required := true, choices := some [("one", .num 1), ("two", .num 2)] }]
      = .ok [some (.num 1)] ∧
    extractArgsFromInteractionOptions {} [("n", .num 2)]
      [{ name := "n", type := OptionType.NUMBER, required := true, choices := some [("one", .num 1), ("two", .num 2)] }]
      = .ok [some (.num 2)] ∧
    extractArgsFromInteractionOptions {} [("n", .num 3)]
      [{ name := "n", type := OptionType.NUMBER, required := true, choices := some [("one", .num 1), ("two", .num 2)] }]
      = .ok [some (.num 3)] :=
  ⟨rfl, rfl, rfl⟩

/-- C6 (code bug): a free-text INTEGER option never parses anything: the
per-token switch has no INTEGER arm, so its `default:` arm throws
Unsupported argument type for every token — the numeric token "5"
included — instead of parsing whole numbers and rejecting only
non-numeric tokens with InvalidFormat. -/
theorem integer_text_token_unsupported :
    extractArgsFromMessage {} [{ name := "k", type := OptionType.INTEGER, required := true }] ["5"]
      = .error (.unsupportedType OptionType.INTEGER) ∧
    extractArgsFromMessage {} [{ name := "k", type := OptionType.INTEGER, required := true }] ["abc"]
      = .error (.unsupportedType OptionType.INTEGER) :=
  ⟨rfl, rfl⟩

/-- C7 counterexample: an optional (required=false) collect-marked
STRING option with the two tokens a, b remaining does not join them: the
collect branch is guarded by `required && collect`, so the option
consumes the single token "a" like a plain STRING instead of producing
"a b". -/
theorem optional_collect_not_joined_cex :
    extractArgsFromMessage {} [{ name := "r", type := OptionType.STRING, required := false, collect := true }] ["a", "b"]
      = .ok [some (.str "a")] ∧
    String.intercalate " " ["a", "b"] = "a b" ∧
    extractArgsFromMessage {} [{ name := "r", type := OptionType.STRING, required := false, collect := true }] ["a", "b"]
      ≠ .ok [some (.str "a b")] := by
  refine ⟨rfl, rfl, fun hcontra => ?_⟩
  have heq := (Eq.symm (rfl :
      extractArgsFromMessage {} [{ name := "r", type := OptionType.STRING, required := false, collect := true }] ["a", "b"]
        = Except.ok [some (Value.str "a")])).trans hcontra
  injection heq with h3
  exact absurd h3 (by decide)

/-- C7 (amended): a REQUIRED collect-marked STRING option with at least
one (non-empty) token remaining joins all remaining tokens into one
value and stops processing further options (the result list ends there,
whatever options follow); and with zero remaining tokens a required
collect option fails MissingArgument, exactly like a required STRING
without collect. An optional collect option takes a single token
instead. -/
theorem required_collect_joins_and_stops
    (g : GuildCache) (o : CommandOption) (restOpts : List CommandOption)
    (a : String) (restArgs : List String)
    (hreq : o.required = true) (hcol : o.collect = true) (ha : a ≠ "") :
    extractArgsFromMessage g (o :: restOpts) (a :: restArgs)
      = .ok [some (.str (String.intercalate " " (a :: restArgs)))] ∧
    extractArgsFromMessage g (o :: restOpts) []
      = .error (.missingRequired o.name) := by
  constructor
  · simp [extractArgsFromMessage, hreq, hcol, ha]
  · simp [extractArgsFromMessage, hreq]

/-- C7 witness: the required-collect theorem applied to a concrete
required collect STRING option followed by a further option, with the
tokens being, rude remaining: the resolved value is the join "being
rude" and the trailing option is left unprocessed. -/
theorem required_collect_joins_and_stops_witness :
    extractArgsFromMessage {} [{ name := "reason", type := OptionType.STRING, required := true, collect := true }, { name := "k", type := OptionType.INTEGER, required := true }] ["being", "rude"]
      = .ok [some (.str (String.intercalate " " ["being", "rude"]))] ∧
    extractArgsFromMessage {} [{ name := "reason", type := OptionType.STRING, required := true, collect := true }, { name := "k", type := OptionType.INTEGER, required := true }] []
      = .error (.missingRequired "reason") :=
  required_collect_joins_and_stops {}
    { name := "reason", type := OptionType.STRING, required := true, collect := true }
    [{ name := "k", type := OptionType.INTEGER, required := true }]
    "being" ["rude"] rfl rfl (by decide)

/-- C10: on the structured (interaction) path, a provided platform value
that is falsy — boolean false, the number 0, or the empty string — makes
the option resolve to undefined, regardless of its type, required flag
or declared default: the guard `!optionValue.value` treats every falsy
provided value as absent. -/
theorem falsy_interaction_value_resolves_undefined
    (g : GuildCache) (o : CommandOption) (v : Value)
    (h : v = .bool false ∨ v = .num 0 ∨ v = .str "") :
    extractArgsFromInteractionOptions g [(o.name, v)] [o] = .ok [none] := by
  rcases h with h | h | h <;> subst h <;>
    simp [extractArgsFromInteractionOptions, interactionGet, assocGet,
      resolveInteractionOption, jsFalsyOpt, jsFalsy]

/-- C10 witness: the falsy-value theorem applied to a NUMBER option with
a declared default 7 and the provided value 0: the result is undefined,
not 0 and not the default. -/
theorem falsy_interaction_value_resolves_undefined_witness :
    extractArgsFromInteractionOptions {}
      [("x", Value.num 0)]
      [{ name := "x", type := OptionType.NUMBER, required := false, defaultValue := some (.value (.num 7)) }]
      = .ok [none] :=
  falsy_interaction_value_resolves_undefined {}
    { name := "x", type := OptionType.NUMBER, required := false, defaultValue := some (.value (.num 7)) }
    (Value.num 0) (Or.inr (Or.inl rfl))

end Flux
